import Mathlib

/-!
# SearchSync — verification of the fault-tolerance core and relevance scorer

Shallow embedding of the SearchSync orchestration layer:

* `CircuitBreaker` / `RetryMechanism` — from the error-handling module
  (`CircuitBreaker.execute/onSuccess/onFailure`, `RetryMechanism.execute/calculateDelay`).
* the `ipcMain.on('search')` dispatch loop and `Promise.allSettled` collection — from
  `src/main.js` (candidate filtering, task construction, partial-failure collection).
* the relevance scorer — from `src/relevance-scorer.js` (`tokenize`, `calculateBM25Score`,
  `calculateRecencyBoost`, `calculateRelevanceScores`).

Modelling conventions:

* Times (`Date.now()`) are natural numbers of milliseconds, threaded explicitly.
* JavaScript numbers that can be `NaN` are modelled as `Option ℝ`: `none` is `NaN`,
  and the `js*` arithmetic wrappers propagate `none` the way IEEE arithmetic and
  `Math.max`/`Math.min`/`Math.exp` propagate `NaN`.
* An async call (`fn` / `searchHandler`) is a function from its invocation index to the
  outcome of that invocation, so "how many times was the provider invoked" is observable:
  the simulators thread the next invocation index and return it.
* `Math.random()` is an explicit parameter `r ∈ [0,1)`.
-/

namespace SearchSync

/-- A thrown JS error, as far as the fault-tolerance core inspects it: its message,
its transport error code (`error.code`; `none` = property absent), and the HTTP status
of an attached response object (`error.response.status`; `none` = no response object —
a response whose `status` is `undefined` behaves identically, since
`[...].includes(undefined)` is false). These are exactly the fields `isTransientError`
reads. -/
structure JsError where
  message : String
  code : Option String
  responseStatus : Option ℕ
  deriving DecidableEq, Repr

/-- Outcome of one (awaited) JavaScript call: resolved value or thrown error. -/
inductive JsResult (α : Type) where
  | ok (value : α)
  | err (error : JsError)
  deriving DecidableEq, Repr

end SearchSync

namespace SearchSync

/-- The `transientCodes` list of `isTransientError` (`integrations/utils.js`). -/
def transientCodes : List String :=
  ["ETIMEDOUT", "ECONNRESET", "ECONNABORTED", "ENETUNREACH", "EHOSTUNREACH",
   "ECONNREFUSED"]

/-- The `transientStatusCodes` list of `isTransientError` (`integrations/utils.js`). -/
def transientStatusCodes : List ℕ :=
  [408, 429, 500, 502, 503, 504]

/-- Model of `isTransientError(error)` from `integrations/utils.js`: true when
`error.code` is truthy (a non-empty string) and in `transientCodes`, or when a response
object is attached and its status is in `transientStatusCodes`; false otherwise. (The
leading `if (!error) return false` guard concerns a falsy argument, which the `JsError`
model cannot represent — the retry loop only ever passes a caught exception.) -/
def isTransientError (error : JsError) : Bool :=
  let codeIsTransient :=
    match error.code with
    | some c => !(c == "") && transientCodes.contains c
    | none => false
  let statusIsTransient :=
    match error.responseStatus with
    | some status => transientStatusCodes.contains status
    | none => false
  if codeIsTransient then true
  else if statusIsTransient then true
  else false

/-- Circuit breaker state constants (`'CLOSED' | 'OPEN' | 'HALF_OPEN'`). -/
inductive BreakerState where
  | CLOSED
  | OPEN
  | HALF_OPEN
  deriving DecidableEq, Repr

/-- The `CircuitBreaker` instance fields (constructor of the error-handling module). -/
structure CircuitBreaker where
  threshold : ℕ
  timeout : ℕ
  resetTimeout : ℕ
  failureCount : ℕ
  lastFailure : Option ℕ
  state : BreakerState
  nextAttempt : Option ℕ
  deriving DecidableEq, Repr

/-- Constructor options object for `new CircuitBreaker(options)`; `none` = field absent. -/
structure BreakerOptions where
  threshold : Option ℕ
  timeout : Option ℕ
  resetTimeout : Option ℕ
  deriving DecidableEq, Repr

/-- JS `x || d` for a numeric option field: `0` (and absence) are falsy and fall back
to the default. -/
def jsOrNat (x : Option ℕ) (d : ℕ) : ℕ :=
  match x with
  | none => d
  | some n => if n = 0 then d else n

/-- Model of `new CircuitBreaker(options)`: `threshold = options.threshold || 5`,
`timeout = options.timeout || 60000`, `resetTimeout = options.resetTimeout || 30000`,
`failureCount = 0`, `lastFailure = null`, `state = 'CLOSED'`, `nextAttempt = null`. -/
def mkCircuitBreaker (options : BreakerOptions) : CircuitBreaker :=
  { threshold := jsOrNat options.threshold 5
    timeout := jsOrNat options.timeout 60000
    resetTimeout := jsOrNat options.resetTimeout 30000
    failureCount := 0
    lastFailure := none
    state := .CLOSED
    nextAttempt := none }

/-- Model of `setState(state)` — the guard `this.state !== state` only controls logging. -/
def CircuitBreaker.setState (cb : CircuitBreaker) (s : BreakerState) : CircuitBreaker :=
  { cb with state := s }

/-- Model of `onSuccess()`: `failureCount = 0; setState('CLOSED')`. -/
def CircuitBreaker.onSuccess (cb : CircuitBreaker) : CircuitBreaker :=
  { cb.setState .CLOSED with failureCount := 0 }

/-- Model of `onFailure()` at time `now` (= `Date.now()`): increment `failureCount`, record
`lastFailure`, and if `failureCount >= threshold` open the breaker with
`nextAttempt = now + resetTimeout`. -/
def CircuitBreaker.onFailure (cb : CircuitBreaker) (now : ℕ) : CircuitBreaker :=
  let cb1 := { cb with failureCount := cb.failureCount + 1, lastFailure := some now }
  if cb1.failureCount ≥ cb1.threshold then
    { cb1.setState .OPEN with nextAttempt := some (now + cb1.resetTimeout) }
  else
    cb1

/-- The synthetic error thrown while the breaker is `OPEN` and `Date.now() < nextAttempt`. -/
def circuitOpenError : JsError :=
  { message := "Circuit breaker is OPEN - service unavailable", code := none,
    responseStatus := none }

/-- Model of `CircuitBreaker.execute(fn)` at time `now`. `body` is the wrapped computation as a
function from the next invocation index to (outcome, next invocation index), so that the
number of underlying invocations is observable. Returns (result, new breaker state, next
invocation index). While `OPEN` and `Date.now() < this.nextAttempt` (JS compares against
`null` as `0`), throws the service-unavailable error without running `body`; otherwise an
`OPEN` breaker first moves to `HALF_OPEN`, the body runs once, and `onSuccess`/`onFailure`
record its outcome (the thrown error is re-thrown). -/
def CircuitBreaker.executeSim (cb : CircuitBreaker) (now : ℕ)
    (body : ℕ → JsResult α × ℕ) (k : ℕ) : JsResult α × CircuitBreaker × ℕ :=
  let proceed := fun (cb1 : CircuitBreaker) =>
    match body k with
    | (.ok v, k1) => (JsResult.ok v, cb1.onSuccess, k1)
    | (.err e, k1) => (JsResult.err e, cb1.onFailure now, k1)
  match cb.state with
  | .OPEN =>
    if now < cb.nextAttempt.getD 0 then
      (JsResult.err circuitOpenError, cb, k)
    else
      proceed (cb.setState .HALF_OPEN)
  | _ => proceed cb

/-- Constructor options object for `new RetryMechanism(options)`. -/
structure RetryOptions where
  maxRetries : Option ℕ
  baseDelay : Option ℕ
  maxDelay : Option ℕ
  jitter : Option Bool
  deriving DecidableEq, Repr

/-- JS `options.jitter || true`: a present truthy value is kept, and a falsy value
(absent, or `false`) falls back to `true`. -/
def jsOrBoolTrue (x : Option Bool) : Bool :=
  match x with
  | none => true
  | some b => if b then b else true

/-- The `RetryMechanism` instance fields. -/
structure RetryMechanism where
  maxRetries : ℕ
  baseDelay : ℕ
  maxDelay : ℕ
  jitter : Bool
  deriving DecidableEq, Repr

/-- Model of `new RetryMechanism(options)`: `maxRetries = options.maxRetries || 3`,
`baseDelay = options.baseDelay || 1000`, `maxDelay = options.maxDelay || 30000`,
`jitter = options.jitter || true`. -/
def mkRetryMechanism (options : RetryOptions) : RetryMechanism :=
  { maxRetries := jsOrNat options.maxRetries 3
    baseDelay := jsOrNat options.baseDelay 1000
    maxDelay := jsOrNat options.maxDelay 30000
    jitter := jsOrBoolTrue options.jitter }

/-- Model of `RetryMechanism.calculateDelay(attempt)` with the `Math.random()` sample `r` made
explicit: `delay = min(baseDelay * 2^(attempt-1), maxDelay)`; if `this.jitter`,
`delay = delay * (0.5 + r * 0.5)`; return `Math.floor(delay)`. -/
noncomputable def RetryMechanism.calculateDelay (m : RetryMechanism) (attempt : ℕ)
    (r : ℝ) : ℤ :=
  let delay : ℝ := min ((m.baseDelay : ℝ) * 2 ^ (attempt - 1)) (m.maxDelay : ℝ)
  let delay := if m.jitter then delay * (0.5 + r * 0.5) else delay
  ⌊delay⌋

/-- The `for (attempt = 1; attempt <= maxRetries; attempt++)` loop body of
`RetryMechanism.execute(fn)`, with `remaining` = `maxRetries - attempt + 1` as fuel and
`k` the next invocation index of `fn`. On an error, the loop re-throws when
`attempt === maxRetries` (`remaining = 1`) or the error is not transient; otherwise it
sleeps (time not modelled here; the delay value is `calculateDelay`) and re-invokes `fn`.
The `remaining = 0` base case is unreachable from `retryExecuteSim` because the
constructor makes `maxRetries ≥ 1`; it mirrors the dead `throw lastError` after the
loop, surfacing an arbitrary fixed error. -/
def retryLoopSim (fn : ℕ → JsResult α) : ℕ → ℕ → JsResult α × ℕ
  | 0, k => (JsResult.err { message := "retry loop exhausted", code := none, responseStatus := none }, k)
  | remaining + 1, k =>
    match fn k with
    | .ok v => (JsResult.ok v, k + 1)
    | .err e =>
      if remaining = 0 ∨ isTransientError e = false then
        (JsResult.err e, k + 1)
      else
        retryLoopSim fn remaining (k + 1)

/-- Model of `RetryMechanism.execute(fn)` starting at invocation index `k`. -/
def RetryMechanism.executeSim (m : RetryMechanism) (fn : ℕ → JsResult α) (k : ℕ) :
    JsResult α × ℕ :=
  retryLoopSim fn m.maxRetries k

/-! ## Search results (data model shared by the orchestrator and the scorer) -/

/-- The `updated` field of a result, by how `calculateRecencyBoost` can see it:
JS-falsy (`null`/`undefined`/`''`/`0` — the `!updatedDate` branch), a truthy value that
`new Date(...)` cannot parse (Invalid Date, whose arithmetic is `NaN`), or a value
parsing to an epoch-milliseconds instant `t`. -/
inductive UpdatedField where
  | missing
  | invalid
  | valid (t : ℝ)

/-- The `tags` field: either an array (joined with spaces) or a plain value used via
`result.tags || ''`. -/
inductive TagsField where
  | arr (items : List String)
  | str (s : String)

/-- A search result as the scorer reads and decorates it. `relevanceScore` is
`Option (Option ℝ)`: the outer `Option` is presence of the field (`none` = never
assigned), the inner `Option ℝ` is the JS number (`none` = `NaN`). -/
structure SearchResult where
  title : String
  description : String
  tags : TagsField
  type : String
  status : String
  comments : String
  updated : UpdatedField
  relevanceScore : Option (Option ℝ)

/-! ## Search orchestrator (`ipcMain.on('search')` in `src/main.js`) -/

/-- A provider's resolved `ResultValue` (spec §6): an array of result-like objects,
or anything else (which the default extractor treats as empty). -/
inductive ResultValue where
  | arr (items : List SearchResult)
  | nonArray

/-- The default result extractor at `main.js`:
`(value) => (Array.isArray(value) ? value : [])`. -/
def defaultExtractor : ResultValue → List SearchResult
  | .arr items => items
  | .nonArray => []

/-- A stored integration configuration object. `enabled` is the `enabled` property
(`none` = property absent/`undefined`); `payload` is whatever else the provider's
validator and search handler read (`none` for the empty object `{}` substituted by
`integrations[id] || {}`). -/
structure JsConfig (κ : Type) where
  enabled : Option Bool
  payload : Option κ

/-- The empty object `{}` used when `integrations[id]` is absent. -/
def JsConfig.empty : JsConfig κ :=
  { enabled := none, payload := none }

/-- One entry of the integration registry, as the search handler consumes it.
`validateSearchConfig` and `resultExtractor` are optional capabilities;
`searchHandler query config` is the provider call as invocation-indexed behaviour. -/
structure IntegrationDefinition (κ : Type) where
  sourceName : String
  filterKey : String
  validateSearchConfig : Option (JsConfig κ → Option String)
  resultExtractor : Option (ResultValue → List SearchResult)
  searchHandler : String → JsConfig κ → ℕ → JsResult ResultValue

/-- Model of `integrations[id] || {}`. -/
def configFor (integrations : String → Option (JsConfig κ)) (id : String) : JsConfig κ :=
  (integrations id).getD JsConfig.empty

/-- Model of `integrationConfig.enabled !== undefined ? Boolean(integrationConfig.enabled) : true`. -/
def isEnabledFor (config : JsConfig κ) : Bool :=
  match config.enabled with
  | none => true
  | some b => b

/-- Model of `safeFilters.length === 0 || safeFilters.includes(definition.filterKey)`. -/
def filterAllowedFor (safeFilters : List String) (definition : IntegrationDefinition κ) :
    Bool :=
  safeFilters.isEmpty || safeFilters.contains definition.filterKey

/-- Model of `definition.validateSearchConfig ? definition.validateSearchConfig(config) : null`. -/
def validationMessageFor (definition : IntegrationDefinition κ) (config : JsConfig κ) :
    Option String :=
  match definition.validateSearchConfig with
  | some validate => validate config
  | none => none

/-- JS truthiness of the `string | null` validation message:
`if (validationMessage) ...` skips the provider only for a non-empty string. -/
def jsTruthyStr : Option String → Bool
  | none => false
  | some s => !(s == "")

/-- One dispatch task entry (`tasks.push({ source, extract, promise })`); the promise's
shape is modelled separately by `dispatchedTask`. -/
structure TaskEntry where
  source : String
  extract : ResultValue → List SearchResult

/-- The candidate-selection loop of the `'search'` handler (`main.js`): for each registry
entry, look up its config (default `{}`), skip it unless enabled and filter-allowed, run
the synchronous validator — a truthy message becomes an error entry and excludes the
provider — and otherwise push a task entry. Returns (tasks, validation-error entries),
both in registry iteration order. -/
def buildTasks (registry : List (String × IntegrationDefinition κ))
    (integrations : String → Option (JsConfig κ)) (safeFilters : List String) :
    List TaskEntry × List (String × String) :=
  match registry with
  | [] => ([], [])
  | (id, definition) :: rest =>
    let (tasks, errs) := buildTasks rest integrations safeFilters
    let integrationConfig := configFor integrations id
    let isEnabled := isEnabledFor integrationConfig
    let filterAllowed := filterAllowedFor safeFilters definition
    if !isEnabled || !filterAllowed then
      (tasks, errs)
    else
      let validationMessage := validationMessageFor definition integrationConfig
      if jsTruthyStr validationMessage then
        (tasks, (definition.sourceName, validationMessage.getD "") :: errs)
      else
        let extract := definition.resultExtractor.getD defaultExtractor
        ({ source := definition.sourceName, extract := extract } :: tasks, errs)

/-- The settlement of one task promise (`Promise.allSettled` entry):
`{status: 'fulfilled', value}` or `{status: 'rejected', reason}`. -/
inductive SettledOutcome where
  | fulfilled (value : ResultValue)
  | rejected (reason : JsError)

/-- The `settled.forEach` collection loop of the `'search'` handler: a fulfilled task
contributes `extract(s.value)` to `results` when non-empty; a rejected task contributes
one `{source, error}` entry, its message mapped by `handleApiError` — the
message-sanitising helper of `integrations/utils.js`, abstracted here as a message
mapping parameter because no verified property depends on the text it produces.
Extraction is total in the model, so the `catch` around `extract` has no branch. -/
def collectSettled (handleApiError : JsError → String) :
    List TaskEntry → List SettledOutcome → List SearchResult × List (String × String)
  | [], _ => ([], [])
  | _ :: _, [] => ([], [])
  | task :: tasks, outcome :: outcomes =>
    let (restResults, restErrors) := collectSettled handleApiError tasks outcomes
    match outcome with
    | .fulfilled value =>
      let arr := task.extract value
      ((if arr.isEmpty then [] else arr) ++ restResults, restErrors)
    | .rejected reason =>
      (restResults, (task.source, handleApiError reason) :: restErrors)

/-- The dispatched task promise, as `main.js` builds it:
`circuitBreaker.execute(() => definition.searchHandler(trimmedQuery, integrationConfig))`
— the search call is passed to the breaker directly, with no retry wrapper.
`search = definition.searchHandler trimmedQuery integrationConfig` as invocation-indexed
behaviour; returns (settled outcome, new breaker state, number of search invocations). -/
def dispatchedTask (cb : CircuitBreaker) (now : ℕ) (search : ℕ → JsResult ResultValue) :
    JsResult ResultValue × CircuitBreaker × ℕ :=
  cb.executeSim now (fun k => (search k, k + 1)) 0

/-- Modelled from the spec: the task shape the spec claims for step 4 of the
orchestrator algorithm,
`breaker(provider.id).execute(() => retry.execute(() => provider.search(query, config)))`
— the breaker's body is a full `RetryMechanism.execute` run over the search call.
Defined for comparison with `dispatchedTask`, which is what `main.js` actually builds. -/
def claimedDispatchedTask (cb : CircuitBreaker) (now : ℕ) (retry : RetryMechanism)
    (search : ℕ → JsResult ResultValue) : JsResult ResultValue × CircuitBreaker × ℕ :=
  cb.executeSim now (fun k => retry.executeSim search k) 0

/-! ## Relevance scorer (`src/relevance-scorer.js`)

JS numbers appear in two flavours here. Quantities that can never be `NaN` on the
reachable inputs (`calculateBM25Score` and its pieces) are plain `ℝ`. Quantities that
can be `NaN` (everything downstream of `new Date(...)` arithmetic) are `Option ℝ`, with
`none` for `NaN`, manipulated through the NaN-propagating `js*` wrappers below, which
mirror IEEE arithmetic and `Math.max`/`Math.min`/`Math.exp` on `NaN`. -/

noncomputable def jsMul : Option ℝ → Option ℝ → Option ℝ
  | some a, some c => some (a * c)
  | _, _ => none

noncomputable def jsSub : Option ℝ → Option ℝ → Option ℝ
  | some a, some c => some (a - c)
  | _, _ => none

noncomputable def jsDiv : Option ℝ → Option ℝ → Option ℝ
  | some a, some c => some (a / c)
  | _, _ => none

noncomputable def jsNeg : Option ℝ → Option ℝ
  | some a => some (-a)
  | none => none

noncomputable def jsExp : Option ℝ → Option ℝ
  | some a => some (Real.exp a)
  | none => none

noncomputable def jsMax : Option ℝ → Option ℝ → Option ℝ
  | some a, some c => some (max a c)
  | _, _ => none

noncomputable def jsMin : Option ℝ → Option ℝ → Option ℝ
  | some a, some c => some (min a c)
  | _, _ => none

namespace BM25_CONFIG

noncomputable def k1 : ℝ := 1.2

noncomputable def b : ℝ := 0.75

noncomputable def recencyDecayPerDay : ℝ := 0.01

noncomputable def minScore : ℝ := 0.1

end BM25_CONFIG

/-- The `STOP_WORDS` set. -/
def STOP_WORDS : List String :=
  ["the", "a", "an", "and", "or", "but", "in", "on", "at", "to", "for",
   "of", "with", "by", "is", "are", "was", "were", "be", "been", "have",
   "has", "had", "do", "does", "did", "will", "would", "could", "should"]

/-- The regex class `\w` = `[A-Za-z0-9_]`. -/
def isWordChar (c : Char) : Bool :=
  c.isAlphanum || c == '_'

/-- The regex class `\s` (the whitespace characters relevant to these inputs). -/
def isSpaceChar (c : Char) : Bool :=
  c == ' ' || c == '\t' || c == '\n' || c == '\r' || c == '\x0b' || c == '\x0c'

/-- Splitting a character list at whitespace (the `split(/\s+/)` step; a JS regex split
on runs differs from a per-character split only in the empty strings produced around
separator runs, and those are removed by the length filter either way). -/
def splitOnSpaces : List Char → List Char → List String
  | [], acc => [String.mk acc.reverse]
  | c :: cs, acc =>
    if isSpaceChar c then String.mk acc.reverse :: splitOnSpaces cs []
    else splitOnSpaces cs (c :: acc)

/-- Model of `tokenize(text)`: lower-case (per character — these fields are ASCII), replace
`[^\w\s]` by a space, split on whitespace, keep tokens of length > 1 that are not
stop-words. -/
def tokenize (text : String) : List String :=
  let replaced := text.data.map (fun c =>
    let lc := c.toLower
    if isWordChar lc || isSpaceChar lc then lc else ' ')
  (splitOnSpaces replaced []).filter
    (fun token => token.length > 1 && !(STOP_WORDS.contains token))

/-- The `tags` part of the searchable text:
`Array.isArray(result.tags) ? result.tags.join(' ') : (result.tags || '')`. -/
def tagsText : TagsField → String
  | .arr items => String.intercalate " " items
  | .str s => s

/-- Model of `extractSearchableText(result)`: join the six text fields with spaces, tokenize. -/
def extractSearchableText (result : SearchResult) : List String :=
  tokenize (String.intercalate " "
    [result.title, result.description, tagsText result.tags, result.type, result.status,
     result.comments])

/-- Model of `calculateBM25Score(queryTerms, docTokens, allDocTokens, avgDocLength)`. Term
frequencies come from the `termCounts` map (`docTokens.count`); a term with `tf = 0` or
contained in no corpus document contributes nothing; otherwise it contributes
`idf * (tf*(k1+1)) / (tf + k1*(1 - b + b*(docLength/avgDocLength)))` with
`idf = ln((N - docsWithTerm + 0.5) / (docsWithTerm + 0.5))`. -/
noncomputable def calculateBM25Score (queryTerms : List String) (docTokens : List String)
    (allDocTokens : List (List String)) (avgDocLength : ℝ) : ℝ :=
  let docLength := docTokens.length
  if docLength = 0 then 0
  else
    queryTerms.foldl (fun score term =>
      let tf := docTokens.count term
      if 0 < tf then
        let docsWithTerm := (allDocTokens.filter (fun tokens => tokens.contains term)).length
        if docsWithTerm = 0 then score
        else
          let idf := Real.log (((allDocTokens.length : ℝ) - (docsWithTerm : ℝ) + 0.5) /
            ((docsWithTerm : ℝ) + 0.5))
          let numerator := (tf : ℝ) * (BM25_CONFIG.k1 + 1)
          let denominator := (tf : ℝ) + BM25_CONFIG.k1 *
            (1 - BM25_CONFIG.b + BM25_CONFIG.b * ((docLength : ℝ) / avgDocLength))
          score + idf * (numerator / denominator)
      else score) 0

/-- Model of `calculateRecencyBoost(updatedDate)` at current time `now` (epoch ms). A JS-falsy
`updated` returns the neutral `0.5`. Otherwise
`daysDiff = (new Date() - new Date(updatedDate)) / (1000*60*60*24)` and the result is
`Math.max(0.1, Math.min(1.0, Math.exp(-daysDiff * recencyDecayPerDay)))`. For a truthy
unparsable value, `new Date(updatedDate)` is an Invalid Date whose subtraction is `NaN`
— no exception is thrown, so the `catch` branch (returning 0.5) is not reached and the
`NaN` propagates to the returned value. -/
noncomputable def calculateRecencyBoost (now : ℝ) (updatedDate : UpdatedField) :
    Option ℝ :=
  match updatedDate with
  | .missing => some 0.5
  | u =>
    let updatedMs : Option ℝ :=
      match u with
      | .valid t => some t
      | _ => none
    let daysDiff := jsDiv (jsSub (some now) updatedMs) (some (1000 * 60 * 60 * 24))
    let boost := jsExp (jsMul (jsNeg daysDiff) (some BM25_CONFIG.recencyDecayPerDay))
    jsMax (some 0.1) (jsMin (some 1.0) boost)

/-- Model of `calculateUserBoost(result, userContext)` — always the neutral `1.0` (the click
history feature was removed). -/
noncomputable def calculateUserBoost (_result : SearchResult) : ℝ :=
  1.0

/-- The JS number a sort comparator reads from `relevanceScore` (an absent field is
`undefined`, which behaves as `NaN` in arithmetic). -/
def scoreNum (x : Option (Option ℝ)) : Option ℝ :=
  x.getD none

/-- The sort comparator `(a, b) => b.relevanceScore - a.relevanceScore`, as the
"`a` may stay before `b`" relation used by a stable sort: true iff the comparator is
`≤ 0`. A `NaN` comparator value reorders nothing in the model (ECMA-262 leaves the
order with an inconsistent comparator unspecified; no claim depends on it). -/
noncomputable def compareScores (a c : SearchResult) : Bool :=
  match jsSub (scoreNum c.relevanceScore) (scoreNum a.relevanceScore) with
  | some d => if d ≤ 0 then true else false
  | none => true

/-- Model of `calculateRelevanceScores(results, query, userContext)` at current time `now`.
Empty result list returns `[]`; a falsy query or a query with no tokens returns the
input list unchanged; otherwise every result is rebuilt with
`relevanceScore = Math.max(minScore, bm25 * recencyBoost * userBoost)` and the list is
sorted by descending score (`Array.prototype.sort` is stable; modelled as a stable
merge sort over `compareScores`). -/
noncomputable def calculateRelevanceScores (now : ℝ) (results : List SearchResult)
    (query : String) : List SearchResult :=
  if results.isEmpty then []
  else if query == "" then results
  else
    let queryTerms := tokenize query
    if queryTerms.isEmpty then results
    else
      let docTokens := results.map extractSearchableText
      let avgDocLength : ℝ :=
        ((docTokens.foldl (fun sum tokens => sum + tokens.length) 0 : ℕ) : ℝ) /
          (docTokens.length : ℝ)
      let scoredResults := (results.zip docTokens).map (fun p =>
        let bm25Score := calculateBM25Score queryTerms p.2 docTokens avgDocLength
        let recencyBoost := calculateRecencyBoost now p.1.updated
        let userBoost := calculateUserBoost p.1
        let relevanceScore := jsMul (jsMul (some bm25Score) recencyBoost) (some userBoost)
        { p.1 with relevanceScore := some (jsMax (some BM25_CONFIG.minScore) relevanceScore) })
      scoredResults.mergeSort compareScores

end SearchSync

namespace SearchSync

/-! ## Theorems -/

/-- Model of `ts.foldl onFailure cb`: a sequence of recorded failures at the given times. -/
def applyFailures (cb : CircuitBreaker) (ts : List ℕ) : CircuitBreaker :=
  ts.foldl (fun c t => c.onFailure t) cb

theorem onFailure_failureCount (cb : CircuitBreaker) (now : ℕ) :
    (cb.onFailure now).failureCount = cb.failureCount + 1 := by
  simp only [CircuitBreaker.onFailure]
  split <;> rfl

theorem onFailure_threshold (cb : CircuitBreaker) (now : ℕ) :
    (cb.onFailure now).threshold = cb.threshold := by
  simp only [CircuitBreaker.onFailure]
  split <;> rfl

theorem applyFailures_state_open (ts : List ℕ) (cb : CircuitBreaker)
    (hne : ts ≠ []) (hcount : cb.threshold ≤ cb.failureCount + ts.length) :
    (applyFailures cb ts).state = .OPEN := by
  induction ts generalizing cb with
  | nil => exact absurd rfl hne
  | cons t rest ih =>
    cases rest with
    | nil =>
      have hopen : cb.failureCount + 1 ≥ cb.threshold := by
        simpa using hcount
      simp only [applyFailures, List.foldl]
      unfold CircuitBreaker.onFailure
      simp only [ge_iff_le]
      rw [if_pos hopen]
      rfl
    | cons t2 rest2 =>
      have step : applyFailures cb (t :: t2 :: rest2)
          = applyFailures (cb.onFailure t) (t2 :: rest2) := rfl
      rw [step]
      refine ih (cb.onFailure t) (by simp) ?_
      rw [onFailure_failureCount, onFailure_threshold]
      simp only [List.length_cons] at hcount ⊢
      omega

theorem jsOrNat_pos (x : Option ℕ) (d : ℕ) (hd : 0 < d) : 0 < jsOrNat x d := by
  unfold jsOrNat
  cases x with
  | none => exact hd
  | some n =>
    by_cases h : n = 0
    · simp [h, hd]
    · simp [h]
      omega

/-- C3: after `threshold` consecutive recorded failures a circuit breaker is `OPEN`,
and any `execute(fn)` made while `OPEN` and before `nextAttemptAt` has elapsed fails
immediately with the "service unavailable" error, with zero invocations of `fn` (the
invocation index is returned unchanged and the breaker state is untouched, for every
possible body). -/
theorem breaker_opens_and_short_circuits {α : Type}
    (options : BreakerOptions) (ts : List ℕ)
    (hlen : ts.length = (mkCircuitBreaker options).threshold)
    (cb : CircuitBreaker) (now k : ℕ) (body : ℕ → JsResult α × ℕ)
    (hstate : cb.state = .OPEN) (hnext : now < cb.nextAttempt.getD 0) :
    (applyFailures (mkCircuitBreaker options) ts).state = .OPEN
      ∧ cb.executeSim now body k = (.err circuitOpenError, cb, k)
      ∧ circuitOpenError.message = "Circuit breaker is OPEN - service unavailable" := by
  refine ⟨?_, ?_, rfl⟩
  · have hpos : 0 < (mkCircuitBreaker options).threshold :=
      jsOrNat_pos options.threshold 5 (by omega)
    refine applyFailures_state_open ts (mkCircuitBreaker options) ?_ ?_
    · intro h
      rw [h] at hlen
      simp at hlen
      omega
    · rw [hlen]
      simp [mkCircuitBreaker]
  · simp only [CircuitBreaker.executeSim, hstate]
    rw [if_pos hnext]

/-- Witness for C3 at a concrete breaker: options `{threshold: 3}` tripped by three
failures, and a short-circuited call at `now = 50 < nextAttempt = 100`. -/
theorem breaker_opens_and_short_circuits_witness :
    (applyFailures (mkCircuitBreaker ⟨some 3, none, none⟩) [1, 2, 3]).state = .OPEN
      ∧ CircuitBreaker.executeSim ⟨3, 60000, 30000, 3, some 3, .OPEN, some 100⟩ 50
          (fun j => ((JsResult.ok (0 : ℕ)), j + 1)) 0
        = (.err circuitOpenError, ⟨3, 60000, 30000, 3, some 3, .OPEN, some 100⟩, 0)
      ∧ circuitOpenError.message = "Circuit breaker is OPEN - service unavailable" :=
  breaker_opens_and_short_circuits ⟨some 3, none, none⟩ [1, 2, 3] (by decide)
    ⟨3, 60000, 30000, 3, some 3, .OPEN, some 100⟩ 50 0
    (fun j => ((JsResult.ok (0 : ℕ)), j + 1)) (by decide) (by decide)

theorem onFailure_open_of_threshold_le (cb : CircuitBreaker) (now : ℕ)
    (h : cb.threshold ≤ cb.failureCount + 1) :
    (cb.onFailure now).state = .OPEN
      ∧ (cb.onFailure now).nextAttempt = some (now + cb.resetTimeout) := by
  simp only [CircuitBreaker.onFailure]
  split
  · exact ⟨rfl, rfl⟩
  · next hc =>
      simp only [ge_iff_le] at hc
      exact absurd h hc

/-- C4: a breaker in `OPEN` whose `nextAttemptAt` has elapsed lets the next call
through as a `HALF_OPEN` trial: a successful trial resets `failureCount` to 0 and the
state to `CLOSED`; a failing trial returns the state to `OPEN` with a freshly computed
`nextAttemptAt = now + resetTimeout`. The hypothesis `threshold ≤ failureCount` is the
reachability invariant of the `OPEN` state: it is only entered by `onFailure` when
`failureCount ≥ threshold`, and `failureCount` never decreases while the breaker stays
`OPEN`/`HALF_OPEN` (only `onSuccess` resets it, moving to `CLOSED`). -/
theorem half_open_trial_transitions {α : Type} (cb : CircuitBreaker) (now k : ℕ)
    (v : α) (e : JsError) (hstate : cb.state = .OPEN)
    (helapsed : cb.nextAttempt.getD 0 ≤ now) (hinv : cb.threshold ≤ cb.failureCount) :
    ((cb.executeSim now (fun j => (JsResult.ok v, j + 1)) k).2.1.failureCount = 0
      ∧ (cb.executeSim now (fun j => (JsResult.ok v, j + 1)) k).2.1.state = .CLOSED
      ∧ (cb.executeSim now (fun j => (JsResult.ok v, j + 1)) k).1 = .ok v)
    ∧ ((cb.executeSim now (fun j => ((JsResult.err e : JsResult α), j + 1)) k).2.1.state = .OPEN
      ∧ (cb.executeSim now (fun j => ((JsResult.err e : JsResult α), j + 1)) k).2.1.nextAttempt
          = some (now + cb.resetTimeout)
      ∧ (cb.executeSim now (fun j => ((JsResult.err e : JsResult α), j + 1)) k).1 = .err e) := by
  have hlt : ¬ now < cb.nextAttempt.getD 0 := not_lt.mpr helapsed
  have hopen := onFailure_open_of_threshold_le (cb.setState .HALF_OPEN) now
    (by simpa [CircuitBreaker.setState] using Nat.le_succ_of_le hinv)
  refine ⟨⟨?_, ?_, ?_⟩, ?_, ?_, ?_⟩ <;>
    simp only [CircuitBreaker.executeSim, hstate, if_neg hlt] <;>
    first
      | rfl
      | exact hopen.1
      | simpa [CircuitBreaker.setState] using hopen.2

/-- Witness for C4: a tripped breaker `{threshold 3, failureCount 3, OPEN,
nextAttempt 10}` trialled at `now = 10` with a succeeding and a failing body. -/
theorem half_open_trial_transitions_witness :
    ((CircuitBreaker.executeSim ⟨3, 60000, 30000, 3, some 2, .OPEN, some 10⟩ 10
          (fun j => (JsResult.ok (0 : ℕ), j + 1)) 0).2.1.failureCount = 0
      ∧ (CircuitBreaker.executeSim ⟨3, 60000, 30000, 3, some 2, .OPEN, some 10⟩ 10
          (fun j => (JsResult.ok (0 : ℕ), j + 1)) 0).2.1.state = .CLOSED
      ∧ (CircuitBreaker.executeSim ⟨3, 60000, 30000, 3, some 2, .OPEN, some 10⟩ 10
          (fun j => (JsResult.ok (0 : ℕ), j + 1)) 0).1 = .ok 0)
    ∧ ((CircuitBreaker.executeSim ⟨3, 60000, 30000, 3, some 2, .OPEN, some 10⟩ 10
          (fun j => ((JsResult.err ⟨"boom", none, none⟩ : JsResult ℕ), j + 1)) 0).2.1.state = .OPEN
      ∧ (CircuitBreaker.executeSim ⟨3, 60000, 30000, 3, some 2, .OPEN, some 10⟩ 10
          (fun j => ((JsResult.err ⟨"boom", none, none⟩ : JsResult ℕ), j + 1)) 0).2.1.nextAttempt
          = some (10 + 30000)
      ∧ (CircuitBreaker.executeSim ⟨3, 60000, 30000, 3, some 2, .OPEN, some 10⟩ 10
          (fun j => ((JsResult.err ⟨"boom", none, none⟩ : JsResult ℕ), j + 1)) 0).1 = .err ⟨"boom", none, none⟩) :=
  half_open_trial_transitions ⟨3, 60000, 30000, 3, some 2, .OPEN, some 10⟩ 10 0 (0 : ℕ)
    ⟨"boom", none, none⟩ (by decide) (by decide) (by decide)

/-- A transient server error: an HTTP 503 response, so `isTransientError` is true. -/
def serverError : JsError :=
  { message := "Server error", code := none, responseStatus := some 503 }

/-- A provider search behaviour that fails with a transient server error on its first
invocation and succeeds on every later one. -/
def onceFailingSearch : ℕ → JsResult ResultValue := fun k =>
  if k = 0 then JsResult.err serverError
  else JsResult.ok ResultValue.nonArray

/-- C1 counterexample: with the breaker options used by `main.js`
(`{threshold: 3, timeout: 30000, resetTimeout: 60000}`) and a provider that fails once
with a transient error and would succeed on the second attempt, the task `main.js`
dispatches settles as a failure after exactly one invocation of the provider, whereas
the breaker-around-retry composition the claim asserts would succeed after two
invocations — so the dispatched task is not that composition and the transiently
failing call is not re-invoked. -/
theorem dispatch_retry_composition_counterexample :
    (dispatchedTask (mkCircuitBreaker ⟨some 3, some 30000, some 60000⟩) 0
          onceFailingSearch).1
        = JsResult.err serverError
      ∧ (dispatchedTask (mkCircuitBreaker ⟨some 3, some 30000, some 60000⟩) 0
          onceFailingSearch).2.2 = 1
      ∧ (claimedDispatchedTask (mkCircuitBreaker ⟨some 3, some 30000, some 60000⟩) 0
            (mkRetryMechanism ⟨none, none, none, none⟩) onceFailingSearch).1
          = JsResult.ok ResultValue.nonArray
      ∧ (claimedDispatchedTask (mkCircuitBreaker ⟨some 3, some 30000, some 60000⟩) 0
            (mkRetryMechanism ⟨none, none, none, none⟩) onceFailingSearch).2.2 = 2 :=
  ⟨rfl, rfl, rfl, rfl⟩

/-- C1 amended: the task dispatched for an eligible provider is
`circuitBreaker.execute(() => definition.searchHandler(trimmedQuery, integrationConfig))`
with no retry policy applied at the orchestrator (`defaultRetryMechanism` is imported by
`main.js` but never used), so through a closed breaker a provider call that fails on its
first invocation settles as that failure after exactly one invocation. -/
theorem dispatched_task_applies_no_retry (cb : CircuitBreaker) (now : ℕ)
    (search : ℕ → JsResult ResultValue) (e : JsError)
    (hstate : cb.state = .CLOSED) (hfail : search 0 = .err e) :
    (dispatchedTask cb now search).1 = .err e
      ∧ (dispatchedTask cb now search).2.2 = 1 := by
  simp [dispatchedTask, CircuitBreaker.executeSim, hstate, hfail]

/-- Witness for the amended C1 at the concrete once-failing provider. -/
theorem dispatched_task_applies_no_retry_witness :
    (dispatchedTask (mkCircuitBreaker ⟨some 3, some 30000, some 60000⟩) 5
          onceFailingSearch).1
        = JsResult.err serverError
      ∧ (dispatchedTask (mkCircuitBreaker ⟨some 3, some 30000, some 60000⟩) 5
          onceFailingSearch).2.2 = 1 :=
  dispatched_task_applies_no_retry (mkCircuitBreaker ⟨some 3, some 30000, some 60000⟩) 5
    onceFailingSearch serverError rfl rfl

/-- C5 (code defect): the constructor sets `this.jitter = options.jitter || true`, which
evaluates to `true` for every options object — including `{jitter: false}` — so no retry
policy configuration can disable jitter, and `calculateDelay` never computes the exact
`min(baseDelay * 2^(n-1), maxDelay)` backoff that the claim promises for jitter-disabled
configurations: constructed from `{jitter: false}`, attempt 1 with random sample `0`
yields `floor(1000 * 0.5) = 500` instead of the exact `1000`. -/
theorem retry_jitter_cannot_be_disabled :
    (∀ options : RetryOptions, (mkRetryMechanism options).jitter = true)
      ∧ (mkRetryMechanism ⟨none, none, none, some false⟩).jitter = true
      ∧ RetryMechanism.calculateDelay (mkRetryMechanism ⟨none, none, none, some false⟩) 1 0
          = 500 := by
  refine ⟨?_, rfl, ?_⟩
  · intro o
    cases h : o.jitter with
    | none => simp [mkRetryMechanism, jsOrBoolTrue, h]
    | some flag => cases flag <;> simp [mkRetryMechanism, jsOrBoolTrue, h]
  · simp only [RetryMechanism.calculateDelay, mkRetryMechanism, jsOrNat, jsOrBoolTrue]
    norm_num

/-- C6 counterexample: a truthy but unparsable `updated` timestamp does not produce the
neutral `0.5` the claim asserts — `new Date(...)` yields an Invalid Date whose
arithmetic is `NaN` (no exception, so the `catch` never fires) and the `NaN` propagates
through `exp`, `Math.min` and `Math.max` to the returned boost. -/
theorem recency_invalid_not_half_counterexample :
    calculateRecencyBoost 0 .invalid = none
      ∧ calculateRecencyBoost 0 .invalid ≠ some 0.5 := by
  constructor <;>
    simp [calculateRecencyBoost, jsDiv, jsSub, jsMul, jsNeg, jsExp, jsMin, jsMax]

/-- C6 amended: for a parsable `updated` timestamp the boost is exactly
`clamp(exp(-daysSinceUpdate * decayRate), 0.1, 1.0)` with `decayRate = 0.01` per day;
a JS-falsy (missing) `updated` yields exactly `0.5`; but a truthy unparsable `updated`
yields `NaN` (not `0.5` — the `catch` branch is unreachable for such values). -/
theorem recency_boost_amended (now t : ℝ) :
    calculateRecencyBoost now .missing = some 0.5
      ∧ calculateRecencyBoost now (.valid t)
          = some (max 0.1 (min 1.0
              (Real.exp (-((now - t) / (1000 * 60 * 60 * 24)) * BM25_CONFIG.recencyDecayPerDay))))
      ∧ BM25_CONFIG.recencyDecayPerDay = 0.01
      ∧ calculateRecencyBoost now .invalid = none := by
  refine ⟨rfl, ?_, rfl, ?_⟩ <;>
    simp [calculateRecencyBoost, jsDiv, jsSub, jsMul, jsNeg, jsExp, jsMin, jsMax]

/-- A concrete result with empty text fields, no tags, and a missing `updated`. -/
def emptyResult : SearchResult :=
  { title := "", description := "", tags := .str "", type := "", status := "",
    comments := "", updated := .missing, relevanceScore := none }

/-- C10: when the query tokenizes to zero terms, `calculateRelevanceScores` returns the
non-empty input list unchanged — no `relevanceScore` is assigned, nothing is sorted,
and the original order is preserved. -/
theorem zero_term_query_returns_input (now : ℝ) (results : List SearchResult)
    (query : String) (hres : results ≠ []) (htok : tokenize query = []) :
    calculateRelevanceScores now results query = results := by
  simp [calculateRelevanceScores, htok, hres]

/-- Witness for C10: a single unscored result and the stop-word query "the of a". -/
theorem zero_term_query_returns_input_witness :
    calculateRelevanceScores 0 [emptyResult] "the of a" = [emptyResult] :=
  zero_term_query_returns_input 0 [emptyResult] "the of a" (by simp) (by decide)

/-- The dispatch-eligibility predicate of the spec: enabled, filter-matching, and a
`null` result from the synchronous local validation. -/
def dispatchCandidate (integrations : String → Option (JsConfig κ))
    (safeFilters : List String) (p : String × IntegrationDefinition κ) : Bool :=
  isEnabledFor (configFor integrations p.1) && filterAllowedFor safeFilters p.2
    && (validationMessageFor p.2 (configFor integrations p.1)).isNone

theorem collectSettled_mem_of_fulfilled (handleApiError : JsError → String)
    (tasks : List TaskEntry) (outcomes : List SettledOutcome) (i : ℕ)
    (task : TaskEntry) (value : ResultValue) (res : SearchResult)
    (htask : tasks[i]? = some task) (houtcome : outcomes[i]? = some (.fulfilled value))
    (hres : res ∈ task.extract value) :
    res ∈ (collectSettled handleApiError tasks outcomes).1 := by
  induction tasks generalizing outcomes i with
  | nil => simp at htask
  | cons t ts ih =>
    cases outcomes with
    | nil => simp at houtcome
    | cons o os =>
      cases i with
      | zero =>
        simp only [List.getElem?_cons_zero, Option.some.injEq] at htask houtcome
        subst htask
        subst houtcome
        have hne : (t.extract value).isEmpty = false := by
          cases hx : t.extract value with
          | nil =>
            rw [hx] at hres
            simp at hres
          | cons x xs => rfl
        simp [collectSettled, hne, List.mem_append, hres]
      | succ n =>
        simp only [List.getElem?_cons_succ] at htask houtcome
        have hmem := ih os n htask houtcome
        cases o with
        | fulfilled v2 =>
          simp only [collectSettled, List.mem_append]
          exact Or.inr hmem
        | rejected r =>
          simpa only [collectSettled] using hmem

/-- C2: the number of dispatch tasks equals the number of registry providers that are
enabled, match the active filters (an empty filter set matches all), and whose
synchronous validation returns `null` (the hypothesis `hval` records the validator
contract — a validator returns `null` or a human-readable, hence non-empty, message;
`main.js` itself tests the message for truthiness); and a fulfilled task's extracted
results are in the collected response regardless of every other task's outcome — one
provider's failure never removes another's results. -/
theorem dispatch_count_and_partial_tolerance {κ : Type}
    (registry : List (String × IntegrationDefinition κ))
    (integrations : String → Option (JsConfig κ)) (safeFilters : List String)
    (handleApiError : JsError → String)
    (hval : ∀ p ∈ registry, ∀ cfg : JsConfig κ, validationMessageFor p.2 cfg ≠ some "") :
    (buildTasks registry integrations safeFilters).1.length
        = (registry.filter (dispatchCandidate integrations safeFilters)).length
      ∧ ∀ (outcomes : List SettledOutcome) (i : ℕ) (task : TaskEntry)
          (value : ResultValue) (res : SearchResult),
          (buildTasks registry integrations safeFilters).1[i]? = some task →
          outcomes[i]? = some (.fulfilled value) →
          res ∈ task.extract value →
          res ∈ (collectSettled handleApiError
              (buildTasks registry integrations safeFilters).1 outcomes).1 := by
  constructor
  · induction registry with
    | nil => rfl
    | cons p rest ih =>
      obtain ⟨id, d⟩ := p
      have hrest := ih (fun q hq cfg => hval q (List.mem_cons_of_mem _ hq) cfg)
      by_cases h1 : isEnabledFor (configFor integrations id) = true
      · by_cases h2 : filterAllowedFor safeFilters d = true
        · rcases hv : validationMessageFor d (configFor integrations id) with _ | msg
          · simp [buildTasks, dispatchCandidate, List.filter_cons, h1, h2, hv,
              jsTruthyStr, hrest]
          · have hmsg : ¬ msg = "" := by
              intro hcontra
              exact hval (id, d) (List.mem_cons_self _ _) (configFor integrations id)
                (by rw [hv, hcontra])
            simp [buildTasks, dispatchCandidate, List.filter_cons, h1, h2, hv,
              jsTruthyStr, hmsg, hrest]
        · simp [buildTasks, dispatchCandidate, List.filter_cons, h1, h2, hrest]
      · simp [buildTasks, dispatchCandidate, List.filter_cons, h1, hrest]
  · intro outcomes i task value res htask houtcome hres
    exact collectSettled_mem_of_fulfilled handleApiError _ outcomes i task value res
      htask houtcome hres

/-- A provider definition with no validator and no custom extractor. -/
def providerA : IntegrationDefinition Unit :=
  { sourceName := "Alpha", filterKey := "alpha", validateSearchConfig := none,
    resultExtractor := none, searchHandler := fun _ _ _ => JsResult.ok .nonArray }

/-- A provider definition whose validator always fails with a human-readable message. -/
def providerB : IntegrationDefinition Unit :=
  { sourceName := "Beta", filterKey := "beta",
    validateSearchConfig := some (fun _ => some "Missing token"),
    resultExtractor := none, searchHandler := fun _ _ _ => JsResult.ok .nonArray }

/-- A two-provider registry: one dispatchable, one failing local validation. -/
def demoRegistry : List (String × IntegrationDefinition Unit) :=
  [("alpha", providerA), ("beta", providerB)]

/-- Witness for C2: on the two-provider registry exactly one task is dispatched, and
the fulfilled task's results are collected (here the sibling list has only this task). -/
theorem dispatch_count_and_partial_tolerance_witness :
    (buildTasks demoRegistry (fun _ => none) []).1.length
        = (demoRegistry.filter (dispatchCandidate (fun _ => none) [])).length
      ∧ emptyResult ∈ (collectSettled (fun e => e.message)
          (buildTasks demoRegistry (fun _ => none) []).1
          [SettledOutcome.fulfilled (.arr [emptyResult])]).1 := by
  have h := dispatch_count_and_partial_tolerance demoRegistry (fun _ => none) []
    (fun e => e.message)
    (by
      intro p hp cfg
      simp only [demoRegistry, List.mem_cons, List.mem_singleton] at hp
      rcases hp with rfl | rfl | hfalse
      · simp [validationMessageFor, providerA]
      · simp [validationMessageFor, providerB]
      · simp at hfalse)
  exact ⟨h.1, h.2 [SettledOutcome.fulfilled (.arr [emptyResult])] 0
    { source := "Alpha", extract := defaultExtractor } (.arr [emptyResult]) emptyResult
    rfl rfl (by simp [defaultExtractor])⟩

/-- C9: a provider whose stored configuration has no `enabled` field at all is treated
as enabled (`enabled !== undefined ? Boolean(enabled) : true`), and — subject only to
the filter match and the local validation — it is dispatched. -/
theorem missing_enabled_is_candidate {κ : Type} (id : String)
    (d : IntegrationDefinition κ) (payload : Option κ) (safeFilters : List String)
    (integrations : String → Option (JsConfig κ))
    (hcfg : integrations id = some { enabled := none, payload := payload })
    (hfilter : filterAllowedFor safeFilters d = true)
    (hvalid : validationMessageFor d { enabled := none, payload := payload } = none) :
    isEnabledFor ({ enabled := none, payload := payload } : JsConfig κ) = true
      ∧ (buildTasks [(id, d)] integrations safeFilters).1
          = [{ source := d.sourceName,
               extract := d.resultExtractor.getD defaultExtractor }] := by
  refine ⟨rfl, ?_⟩
  simp [buildTasks, configFor, hcfg, hfilter, hvalid, jsTruthyStr, isEnabledFor]

/-- Witness for C9: a never-configured provider (config `{}` with no `enabled`) is
dispatched. -/
theorem missing_enabled_is_candidate_witness :
    isEnabledFor ({ enabled := none, payload := none } : JsConfig Unit) = true
      ∧ (buildTasks [("alpha", providerA)]
            (fun _ => some { enabled := none, payload := none }) []).1
          = [{ source := providerA.sourceName,
               extract := providerA.resultExtractor.getD defaultExtractor }] :=
  missing_enabled_is_candidate "alpha" providerA none []
    (fun _ => some { enabled := none, payload := none }) rfl rfl rfl

/-- A concrete result whose `updated` is a truthy but unparsable timestamp. -/
def invalidUpdatedResult : SearchResult :=
  { title := "", description := "", tags := .str "", type := "", status := "",
    comments := "", updated := .invalid, relevanceScore := none }

/-- C7 counterexample: scoring a result whose `updated` is a truthy unparsable
timestamp assigns `relevanceScore = NaN` — `Math.max(minScore, NaN)` is `NaN` — so the
returned score is not `≥ minScore`. -/
theorem relevance_floor_nan_counterexample :
    (calculateRelevanceScores 0 [invalidUpdatedResult] "zz").map
        (fun r => r.relevanceScore) = [some none]
      ∧ ∀ v : ℝ, (some (none : Option ℝ) : Option (Option ℝ)) ≠ some (some v) := by
  have ht : tokenize "zz" = ["zz"] := by decide
  have hd : extractSearchableText invalidUpdatedResult = [] := by decide
  have hu : invalidUpdatedResult.updated = UpdatedField.invalid := rfl
  constructor
  · simp [calculateRelevanceScores, ht, hd, hu, calculateRecencyBoost, calculateUserBoost,
      jsMul, jsMax, jsMin, jsExp, jsNeg, jsSub, jsDiv]
  · intro v
    simp

/-- C7 amended: after scoring a non-empty result set with a tokenizable query, every
returned result whose `updated` is not a truthy-unparsable timestamp has
`relevanceScore = max(minScore, bm25 · recencyBoost · contextBoost) ≥ minScore`;
results with a truthy unparsable `updated` instead receive `NaN` (see the
counterexample), because `Math.max` propagates `NaN` past the floor. -/
theorem relevance_floor_amended (now : ℝ) (results : List SearchResult) (query : String)
    (r : SearchResult) (hr : r ∈ calculateRelevanceScores now results query)
    (hres : results.isEmpty = false) (hq : (query == "") = false)
    (htok : (tokenize query).isEmpty = false)
    (hupd : r.updated ≠ UpdatedField.invalid) :
    ∃ v : ℝ, r.relevanceScore = some (some v) ∧ BM25_CONFIG.minScore ≤ v := by
  rw [calculateRelevanceScores] at hr
  rw [if_neg (by simp [hres])] at hr
  rw [if_neg (by simp [hq])] at hr
  simp only at hr
  rw [if_neg (by simp [htok])] at hr
  rw [List.mem_mergeSort, List.mem_map] at hr
  obtain ⟨p, hp, rfl⟩ := hr
  have hup : p.1.updated ≠ UpdatedField.invalid := hupd
  have hboost : ∃ bv : ℝ, calculateRecencyBoost now p.1.updated = some bv := by
    cases hu : p.1.updated with
    | missing => exact ⟨0.5, rfl⟩
    | invalid => exact absurd hu hup
    | valid t =>
      refine ⟨max 0.1 (min 1.0 (Real.exp (-((now - t) / (1000 * 60 * 60 * 24))
        * BM25_CONFIG.recencyDecayPerDay))), ?_⟩
      simp [calculateRecencyBoost, jsSub, jsDiv, jsNeg, jsMul, jsExp, jsMin, jsMax]
  obtain ⟨bv, hbv⟩ := hboost
  simp only [hbv, calculateUserBoost, jsMul, jsMax]
  exact ⟨_, rfl, le_max_left _ _⟩

/-- Witness for the amended C7: the single scored result for query "zz" gets exactly
the floor `0.1`. -/
theorem relevance_floor_amended_witness :
    ∃ v : ℝ,
      ({ emptyResult with relevanceScore := some (some (0.1 : ℝ)) } : SearchResult).relevanceScore
          = some (some v)
        ∧ BM25_CONFIG.minScore ≤ v := by
  have ht : tokenize "zz" = ["zz"] := by decide
  have hd : extractSearchableText emptyResult = [] := by decide
  have hu : emptyResult.updated = UpdatedField.missing := rfl
  have hout : calculateRelevanceScores 0 [emptyResult] "zz"
      = [{ emptyResult with relevanceScore := some (some (0.1 : ℝ)) }] := by
    simp [calculateRelevanceScores, ht, hd, hu, calculateBM25Score, calculateRecencyBoost,
      calculateUserBoost, jsMul, jsMax, jsMin, jsExp, jsNeg, jsSub, jsDiv,
      BM25_CONFIG.minScore]
    norm_num [max_eq_left]
  exact relevance_floor_amended 0 [emptyResult] "zz" _
    (by rw [hout]; exact List.mem_singleton.mpr rfl) rfl (by decide) (by decide)
    (by simp [emptyResult])

/-- C8 counterexample: with idf held constant and fixed document length and `avgdl`,
raising a term's frequency can strictly lower the BM25 score — whenever the term occurs
in more than half of the corpus its idf is negative, and the (positive, increasing)
saturation fraction then scales a negative number. Here the corpus is two documents
both containing "cat" (idf = ln(0.5/2.5) < 0): the document with tf = 2 scores strictly
below the one with tf = 1 at the same length 2 and `avgdl` 2. -/
theorem bm25_tf_monotonicity_counterexample :
    calculateBM25Score ["cat"] ["cat", "cat"] [["cat"], ["cat"]] 2
      < calculateBM25Score ["cat"] ["cat", "dog"] [["cat"], ["cat"]] 2 := by
  have hcount2 : (["cat", "cat"] : List String).count "cat" = 2 := by decide
  have hcount1 : (["cat", "dog"] : List String).count "cat" = 1 := by decide
  have hfilt : (([["cat"], ["cat"]] : List (List String)).filter
      (fun tokens => tokens.contains "cat")).length = 2 := by decide
  have hlog : Real.log ((1 : ℝ) / 5) < 0 :=
    Real.log_neg (by norm_num) (by norm_num)
  simp only [calculateBM25Score, BM25_CONFIG.k1, BM25_CONFIG.b, hcount2, hcount1, hfilt,
    List.foldl_cons, List.foldl_nil, List.length_cons, List.length_nil]
  norm_num
  nlinarith [hlog]

/-- The saturation fraction `tf * k / (tf + K)` is monotone in `tf` for `k ≥ 0, K > 0`. -/
theorem bm25_frac_mono (k K t1 t2 : ℝ) (hk : 0 ≤ k) (hK : 0 < K)
    (h1 : 0 ≤ t1) (ht : t1 ≤ t2) :
    t1 * k / (t1 + K) ≤ t2 * k / (t2 + K) := by
  have hd1 : 0 < t1 + K := by linarith
  have hd2 : 0 < t2 + K := by linarith
  rw [div_le_div_iff₀ hd1 hd2]
  nlinarith [mul_nonneg (mul_nonneg hk hK.le) (sub_nonneg.mpr ht)]

/-- C8 amended: for a single query term, fixed document length, fixed corpus (hence
fixed idf) and fixed positive `avgdl`, increasing the term's frequency never decreases
the BM25 score **provided the idf is non-negative**, i.e. the term occurs in at most
half of the corpus documents; with a negative idf (term in more than half the corpus)
the score strictly decreases (see the counterexample). -/
theorem bm25_tf_monotone_amended (term : String) (d1 d2 : List String)
    (corpus : List (List String)) (avgdl : ℝ)
    (hlen : d1.length = d2.length)
    (htf : d1.count term ≤ d2.count term)
    (hidf : 2 * (corpus.filter (fun tokens => tokens.contains term)).length
      ≤ corpus.length)
    (havg : 0 < avgdl) :
    calculateBM25Score [term] d1 corpus avgdl
      ≤ calculateBM25Score [term] d2 corpus avgdl := by
  unfold calculateBM25Score
  by_cases h0 : d2.length = 0
  · have h0' : d1.length = 0 := by rw [hlen, h0]
    simp [h0, h0']
  · have h1 : ¬ d1.length = 0 := by rw [hlen]; exact h0
    rw [if_neg h1, if_neg h0]
    simp only [List.foldl_cons, List.foldl_nil, zero_add]
    rw [hlen]
    by_cases hn0 : (corpus.filter (fun tokens => tokens.contains term)).length = 0
    · rw [hn0]
      simp
    · have hK : (0 : ℝ) < BM25_CONFIG.k1
          * (1 - BM25_CONFIG.b + BM25_CONFIG.b * ((d2.length : ℝ) / avgdl)) := by
        have hdl : (0 : ℝ) ≤ (d2.length : ℝ) / avgdl :=
          div_nonneg (Nat.cast_nonneg _) havg.le
        simp only [BM25_CONFIG.k1, BM25_CONFIG.b]
        nlinarith
      have hidf0 : 0 ≤ Real.log (((corpus.length : ℝ)
          - ((corpus.filter (fun tokens => tokens.contains term)).length : ℝ) + 0.5)
          / (((corpus.filter (fun tokens => tokens.contains term)).length : ℝ) + 0.5)) := by
        apply Real.log_nonneg
        rw [one_le_div (by positivity)]
        have hc : ((2 * (corpus.filter (fun tokens => tokens.contains term)).length : ℕ) : ℝ)
            ≤ ((corpus.length : ℕ) : ℝ) := Nat.cast_le.mpr hidf
        push_cast at hc
        linarith
      have hk1 : (0 : ℝ) ≤ BM25_CONFIG.k1 + 1 := by
        simp only [BM25_CONFIG.k1]
        norm_num
      by_cases htf1 : 0 < d1.count term
      · have htf2 : 0 < d2.count term := lt_of_lt_of_le htf1 htf
        rw [if_pos htf1, if_pos htf2, if_neg hn0, if_neg hn0]
        exact mul_le_mul_of_nonneg_left
          (bm25_frac_mono (BM25_CONFIG.k1 + 1) _ _ _ hk1 hK (Nat.cast_nonneg _)
            (Nat.cast_le.mpr htf)) hidf0
      · rw [if_neg htf1]
        by_cases htf2 : 0 < d2.count term
        · rw [if_pos htf2, if_neg hn0]
          have hfrac : (0 : ℝ) ≤ ((d2.count term : ℝ) * (BM25_CONFIG.k1 + 1))
              / ((d2.count term : ℝ) + BM25_CONFIG.k1
                * (1 - BM25_CONFIG.b + BM25_CONFIG.b * ((d2.length : ℝ) / avgdl))) :=
            div_nonneg (mul_nonneg (Nat.cast_nonneg _) hk1)
              (by positivity)
          exact mul_nonneg hidf0 hfrac
        · rw [if_neg htf2]

/-- Witness for the amended C8: the term "cat" occurs in one of two corpus documents
(idf ≥ 0); raising its tf from 1 to 2 at length 2 does not lower the score. -/
theorem bm25_tf_monotone_amended_witness :
    calculateBM25Score ["cat"] ["cat", "dog"] [["cat"], ["dog"]] 2
      ≤ calculateBM25Score ["cat"] ["cat", "cat"] [["cat"], ["dog"]] 2 :=
  bm25_tf_monotone_amended "cat" ["cat", "dog"] ["cat", "cat"] [["cat"], ["dog"]] 2
    (by decide) (by decide) (by decide) (by norm_num)

end SearchSync
